import Mathlib

/-!
# Verification of the driver-organizer reorganization engine

Shallow embedding of the Go sources of `vitoramaral10/driver-organizer`:
the remote tree walker (`internal/drive`), the retry-wrapped movers
(`internal/drive/mover.go`), the classification cache and the Gemini
classifier (`internal/classifier`), and the interactive decision loop of
`runOrganize` (`internal/cli/auth.go`).  Pure string/list manipulation is
translated directly; remote calls (Google Drive, Gemini) are parameterised
by their outcomes, and stateful folder creation is explicit state passing
over a folder store.  Go `int64` becomes `Int`, Go `float64` confidence
values become `Rat` (only the exact literals 0 and 0.95 appear in the
properties under scrutiny), and Go byte-indexed string operations are
modelled at character granularity (they agree on the ASCII inputs used in
every concrete statement below).
-/

namespace DriverOrganizer

/-! ### Go string primitives

Executable char-list models of the Go `strings` functions the sources
use.  (The core Lean `String` loops are compiled by well-founded
recursion and do not evaluate inside the kernel, so the embedding
carries its own structural versions.) -/

/-- Does `pat` occur as a contiguous run inside `l`? -/
def listContainsRun (pat : List Char) : List Char → Bool
  | [] => pat.isEmpty
  | c :: rest => pat.isPrefixOf (c :: rest) || listContainsRun pat rest

/-- Substring test, mirroring Go `strings.Contains`. -/
def containsSubstr (s pat : String) : Bool :=
  listContainsRun pat.data s.data

/-- Go `strings.ToLower` (ASCII case mapping, all the inputs need). -/
def toLowerStr (s : String) : String :=
  ⟨s.data.map Char.toLower⟩

/-- Go `strings.TrimSpace`: strip leading and trailing whitespace. -/
def trimStr (s : String) : String :=
  ⟨((s.data.dropWhile Char.isWhitespace).reverse.dropWhile Char.isWhitespace).reverse⟩

/-- Go `strings.Split` with a one-character separator: `splitOnChar sep l`
is never empty and concatenating its groups with `sep` restores `l`. -/
def splitOnChar (sep : Char) : List Char → List (List Char)
  | [] => [[]]
  | c :: rest =>
    if c == sep then [] :: splitOnChar sep rest
    else
      match splitOnChar sep rest with
      | [] => [[c]]
      | g :: gs => (c :: g) :: gs

/-- Go `strings.Split(s, "/")`. -/
def splitOnSlash (s : String) : List String :=
  (splitOnChar '/' s.data).map (fun cs => ⟨cs⟩)

/-- Go `s[:n]` on the character level (byte and character indices agree
on the ASCII payloads all concrete statements use). -/
def takeStr (s : String) (n : Nat) : String :=
  ⟨s.data.take n⟩

/-! ## Data model: `drive.FileInfo` (src/unnamed/part_002, lines 14-28) -/

/-- `drive.FileInfo`: metadata of one Drive item. -/
structure FileInfo where
  ID : String
  Name : String
  MimeType : String
  Parents : List String
  CreatedTime : String
  ModifiedTime : String
  Size : Int
deriving DecidableEq, Repr

/-- `FileInfo.IsFolder`: true iff the item is a Drive folder. -/
def FileInfo.IsFolder (f : FileInfo) : Bool :=
  f.MimeType == "application/vnd.google-apps.folder"

/-! ## Classifier data model (src/unnamed/part_000) -/

/-- `classifier.Suggestion`: AI classification output for one file. -/
structure Suggestion where
  Filename : String
  SuggestedFolder : String
  SuggestedName : String
  Reason : String
  Confidence : Rat
  NeedsContent : Bool
deriving DecidableEq, Repr

/-- `classifier.FileMetadata`: file data sent to the classifier. -/
structure FileMetadata where
  Name : String
  MimeType : String
  Size : Int
  CreatedTime : String
  ModifiedTime : String
deriving DecidableEq, Repr

/-! ## Classification cache (src/unnamed/part_001)

The Go cache is a mutex-protected `map[string]*Suggestion`; the map is
embedded as an association list in which `Set` replaces any existing
binding of the key, which is exactly the Go map-update semantics. -/

/-- `classifier.Cache`: memoized suggestions, keyed by string. -/
structure Cache where
  items : List (String × Suggestion)
deriving Repr

/-- `classifier.NewCache`: the empty cache. -/
def NewCache : Cache := ⟨[]⟩

/-- `Cache.Get`: the suggestion stored under `key`, or `none`
(Go returns the map's zero value `nil` for an absent key). -/
def Cache.Get (c : Cache) (key : String) : Option Suggestion :=
  c.items.lookup key

/-- `Cache.Set`: store `suggestion` under `key`, replacing any previous
binding of that key (Go map assignment). -/
def Cache.Set (c : Cache) (key : String) (suggestion : Suggestion) : Cache :=
  ⟨(key, suggestion) :: c.items.filter (fun p => p.1 != key)⟩

/-- `classifier.CacheKey`: cache key for a (name, mime-type) pair. -/
def CacheKey (name mimeType : String) : String :=
  name ++ "|" ++ mimeType

/-- Map invariant: at most one entry per key. -/
def Cache.AtMostOnePerKey (c : Cache) : Prop :=
  ∀ key : String, c.items.countP (fun p => p.1 == key) ≤ 1

/-! ## Remote tree walker (src/unnamed/part_002, lines 113-150)

The remote folder tree is embedded as an inductive tree: a folder's
listing (`listFilesInFolder`, which in the model cannot fail — network
errors are outside the scope of the depth claims) returns its children's
metadata.  `listAllFilesRecursiveWithDepth` mirrors the Go function: at
entry it fails when `depth > 20`; otherwise it walks the children,
descending into each subfolder with `depth + 1` and *skipping* (per the
`continue` in the Go loop) any subfolder whose recursive listing failed,
and collecting non-folder children. -/

/-- One node of the remote tree: a file, or a folder with children. -/
inductive DriveNode where
  | file (info : FileInfo)
  | folder (info : FileInfo) (children : List DriveNode)
deriving Repr

/-- Error message of the depth guard (part_002, line 121). -/
def depthExceededMsg : String :=
  "profundidade máxima de pastas excedida (20 níveis)"

mutual

/-- `drive.listAllFilesRecursiveWithDepth` applied to a folder's children. -/
def listAllFilesRecursiveWithDepth (cs : List DriveNode) (depth : Nat) :
    Except String (List FileInfo) :=
  if depth > 20 then Except.error depthExceededMsg
  else Except.ok (collectFiles cs depth)

/-- The body of the Go `for _, f := range files` loop: files are collected,
subfolders are listed recursively at `depth + 1`, and a failed subfolder
listing is skipped (`continue`) rather than propagated. -/
def collectFiles (cs : List DriveNode) (depth : Nat) : List FileInfo :=
  match cs with
  | [] => []
  | DriveNode.file info :: rest => info :: collectFiles rest depth
  | DriveNode.folder _ sub :: rest =>
    (match listAllFilesRecursiveWithDepth sub (depth + 1) with
     | Except.ok subFiles => subFiles
     | Except.error _ => []) ++ collectFiles rest depth

end

/-- `drive.ListAllFilesRecursive`: recursive listing, depth counter 0. -/
def ListAllFilesRecursive (cs : List DriveNode) : Except String (List FileInfo) :=
  listAllFilesRecursiveWithDepth cs 0

/-! ### Measures on the remote tree

Folder depth of a tree and the list of all (non-folder) files it holds,
used to state what the walker returns. -/

mutual

/-- Folder-nesting height of one node (a file is at height 0). -/
def nodeHeight : DriveNode → Nat
  | DriveNode.file _ => 0
  | DriveNode.folder _ cs => 1 + listHeight cs

/-- Folder-nesting height of a forest. -/
def listHeight : List DriveNode → Nat
  | [] => 0
  | n :: rest => max (nodeHeight n) (listHeight rest)

end

mutual

/-- All non-folder files in one node, in traversal order. -/
def nodeFiles : DriveNode → List FileInfo
  | DriveNode.file i => [i]
  | DriveNode.folder _ cs => listFiles cs

/-- All non-folder files in a forest, in traversal order. -/
def listFiles : List DriveNode → List FileInfo
  | [] => []
  | n :: rest => nodeFiles n ++ listFiles rest

end

/-- A sample file sitting at the bottom of the deep test trees. -/
def bottomFile : FileInfo :=
  ⟨"id-bottom", "bottom.txt", "text/plain", ["p"], "", "", 1⟩

/-- Folder metadata for level `n` of the deep test trees. -/
def folderInfoAt (n : Nat) : FileInfo :=
  ⟨"id-folder-" ++ toString n, "folder" ++ toString n,
   "application/vnd.google-apps.folder", ["p"], "", "", 0⟩

/-- A chain of `n` nested folders with a single file at the bottom:
`deepTree n` has folder depth `n`. -/
def deepTree : Nat → List DriveNode
  | 0 => [DriveNode.file bottomFile]
  | n + 1 => [DriveNode.folder (folderInfoAt n) (deepTree n)]

/-! ## Retryability classification

`mover.go` (lines 132-145) classifies an error for the three mutating
operations; `listFilesInFolder` (part_002, lines 62-73) has its own inline
classification for list-page fetches.  A Go error is embedded as the
status code it carries when it is a `*googleapi.Error`, plus its
`Error()` message string. -/

/-- A Go error as the retry classifiers see it: the `googleapi.Error`
status code, when the error is one, and the `Error()` string. -/
structure GoError where
  apiCode : Option Nat
  msg : String
deriving DecidableEq, Repr

/-- `drive.isRetryable` (mover.go): status codes 429/500/502/503/504 are
retryable; otherwise the error string is scanned for connection-level
failures.  (The Go `switch` only returns on a listed code, so the string
scan also runs for a `googleapi.Error` with an unlisted code.) -/
def isRetryable (e : GoError) : Bool :=
  (match e.apiCode with
   | some c => c == 429 || c == 500 || c == 502 || c == 503 || c == 504
   | none => false)
  || (containsSubstr e.msg "connection reset"
      || containsSubstr e.msg "connection refused"
      || containsSubstr e.msg "timeout")

/-- The inline classification inside `listFilesInFolder`'s retry operation
(part_002, lines 62-73): only `googleapi.Error` codes 500, 503 and 429 are
retried; every other error is wrapped as permanent. -/
def listFetchRetryable (e : GoError) : Bool :=
  match e.apiCode with
  | some c => c == 500 || c == 503 || c == 429
  | none => false

/-- The spec's classification rule, written from its words: an error is
retryable iff it carries a status code in {429, 500, 502, 503, 504} or is
a connection-level failure (reset, refused, timeout).  Kept separate from
the code-derived classifiers so the two can be compared. -/
def specRetryable (e : GoError) : Bool :=
  (match e.apiCode with
   | some c => [429, 500, 502, 503, 504].contains c
   | none => false)
  || (containsSubstr e.msg "connection reset"
      || containsSubstr e.msg "connection refused"
      || containsSubstr e.msg "timeout")

/-! ## Retry Executor (mover.go, lines 15-110)

The three mutating operations wrap one remote call in
`backoff.Retry(operation, backoff.WithContext(b, ctx))` with initial
interval 1s, max interval 30s, max elapsed time 2 minutes.  The backoff
library itself is an external collaborator; its loop is modelled from the
spec (section 4.1): a retryable failure waits the current interval (the
interval then grows by the library's default multiplier 1.5, capped),
until the elapsed-time budget is spent; an error the operation marked
permanent stops the loop at once.  The remote side is modelled as the
finite script of outcomes the successive attempts would observe. -/

/-- Outcome of one remote attempt. -/
inductive AttemptResult where
  | success
  | failure (e : GoError)
deriving DecidableEq, Repr

/-- Result of a retry loop run: how it ended, how many attempts were made
and how many milliseconds were spent waiting between attempts. -/
inductive RetryOutcome where
  | ok (attempts : Nat) (waitedMs : Nat)
  | permanent (e : GoError) (attempts : Nat) (waitedMs : Nat)
  | budgetExhausted (e : GoError) (attempts : Nat) (waitedMs : Nat)
  | scriptEnded (attempts : Nat) (waitedMs : Nat)
deriving DecidableEq, Repr

/-- Modelled from the spec: the Retry Executor loop of section 4.1
(`backoff.Retry` of the external backoff library, which is not part of
the repository).  Retryable failures wait out exponential backoff within
the elapsed-time budget; a permanent failure stops immediately with no
further wait.  `scriptEnded` is the modelling artifact reached when the
finite attempt script runs out. -/
def retryLoop (retryable : GoError → Bool) (budgetMs capMs : Nat) :
    List AttemptResult → Nat → Nat → Nat → RetryOutcome
  | [], made, waited, _ => RetryOutcome.scriptEnded made waited
  | AttemptResult.success :: _, made, waited, _ => RetryOutcome.ok (made + 1) waited
  | AttemptResult.failure e :: rest, made, waited, interval =>
    if retryable e then
      if waited + interval ≤ budgetMs then
        retryLoop retryable budgetMs capMs rest (made + 1) (waited + interval)
          (min (interval * 3 / 2) capMs)
      else RetryOutcome.budgetExhausted e (made + 1) waited
    else RetryOutcome.permanent e (made + 1) waited

/-- Result of one mover call as the caller sees it. -/
inductive MoverResult where
  | ok
  | err (msg : String)
  | undetermined
deriving DecidableEq, Repr

/-- Wraps a finished retry run the way each mover does
(`fmt.Errorf("...'%s': %w", fileID, err)`). -/
def moverWrap (errText fileID : String) (o : RetryOutcome) : MoverResult :=
  match o with
  | RetryOutcome.ok _ _ => MoverResult.ok
  | RetryOutcome.permanent e _ _ => MoverResult.err (errText ++ fileID ++ "': " ++ e.msg)
  | RetryOutcome.budgetExhausted e _ _ => MoverResult.err (errText ++ fileID ++ "': " ++ e.msg)
  | RetryOutcome.scriptEnded _ _ => MoverResult.undetermined

/-- `drive.MoveFile` (mover.go lines 16-44): the remote update is
abstracted by the attempt script; its error, when not `isRetryable`, is
marked permanent for the retry loop. -/
def MoveFile (fileID newParentID oldParentID : String)
    (attempts : List AttemptResult) : MoverResult :=
  moverWrap "erro ao mover arquivo '" fileID
    (retryLoop isRetryable 120000 30000 attempts 0 0 1000)

/-- `drive.RenameFile` (mover.go lines 47-76). -/
def RenameFile (fileID newName : String) (attempts : List AttemptResult) : MoverResult :=
  moverWrap "erro ao renomear arquivo '" fileID
    (retryLoop isRetryable 120000 30000 attempts 0 0 1000)

/-- `drive.MoveAndRenameFile` (mover.go lines 79-110). -/
def MoveAndRenameFile (fileID newName newParentID oldParentID : String)
    (attempts : List AttemptResult) : MoverResult :=
  moverWrap "erro ao mover e renomear arquivo '" fileID
    (retryLoop isRetryable 120000 30000 attempts 0 0 1000)

/-! ## Prompt builders (src/unnamed/part_000, lines 577-644)

Strings are concatenated exactly as the Go `strings.Builder` writes them.
Go `len`/slicing count bytes; the model counts characters, which agrees
on ASCII payloads (all concrete payloads below are ASCII). -/

/-- The `existingFolders` block shared by the builders. -/
def foldersBlock (headerLine : String) (existingFolders : List String) : String :=
  if existingFolders.length > 0 then
    headerLine ++ existingFolders.foldl (fun acc f => acc ++ "- " ++ f ++ "\n") "" ++ "\n"
  else ""

/-- `classifier.buildContentPrompt`: the content payload is cut to its
first 2000 characters plus a `"... [truncado]"` marker when longer than
2000 (the `if len(content) > 2000` at part_000 line 616). -/
def buildContentPrompt (file : FileMetadata) (content : String)
    (existingFolders : List String) : String :=
  let truncated :=
    if content.length > 2000 then (takeStr content 2000) ++ "... [truncado]" else content
  "Classifique o seguinte arquivo com base no nome, metadados E conteúdo.\n\n"
    ++ foldersBlock "Pastas já existentes:\n" existingFolders
    ++ ("Arquivo: " ++ file.Name ++ "\nTipo: " ++ file.MimeType ++ "\nTamanho: "
        ++ toString file.Size ++ " bytes\n\n")
    ++ ("Conteúdo (primeiros caracteres):\n---\n" ++ truncated ++ "\n---\n")
    ++ "\nRetorne um array JSON com a classificação."

/-- `classifier.buildDescriptionPrompt`: the user description is written
into the prompt verbatim — the builder has no truncation step. -/
def buildDescriptionPrompt (file : FileMetadata) (userDescription : String)
    (existingFolders : List String) : String :=
  "Classifique o seguinte arquivo com base no nome, metadados E descrição do usuário.\n\n"
    ++ foldersBlock "Pastas já existentes:\n" existingFolders
    ++ ("Arquivo: " ++ file.Name ++ "\nTipo: " ++ file.MimeType ++ "\nTamanho: "
        ++ toString file.Size ++ " bytes\n\n")
    ++ ("Descrição do usuário:\n---\n" ++ userDescription ++ "\n---\n\n")
    ++ "Com base nesta descrição, sugira a melhor pasta e nome para o arquivo.\n"
    ++ "\nRetorne um array JSON com a classificação."

/-! ## Classification entry points (src/unnamed/part_000, lines 436-524)

The Gemini request (`GenerateContent`) and the JSON decoding
(`parseResponse`) are external effects; a call's outcome is one of:
request failure, parse failure, or a parsed suggestion list. -/

/-- Outcome of one Gemini request as seen after `parseResponse`. -/
inductive AIOutcome where
  | requestError (m : String)
  | parseError (m : String)
  | parsed (suggestions : List Suggestion)
deriving DecidableEq, Repr

/-- Did the request or the parse fail? -/
def AIOutcome.isFailure : AIOutcome → Bool
  | AIOutcome.requestError _ => true
  | AIOutcome.parseError _ => true
  | AIOutcome.parsed _ => false

/-- `Classifier.ClassifyBatch` (lines 436-453): wraps a request failure
and a parse failure in the messages of its two `fmt.Errorf` calls. -/
def ClassifyBatch (o : AIOutcome) : Except String (List Suggestion) :=
  match o with
  | AIOutcome.requestError m => Except.error ("erro ao classificar arquivos: " ++ m)
  | AIOutcome.parseError m => Except.error ("erro ao parsear resposta da IA: " ++ m)
  | AIOutcome.parsed suggestions => Except.ok suggestions

/-- `Classifier.ClassifySingle` (lines 456-472): one-file batch; an empty
suggestion list becomes the "Outros" fallback (unset Go struct fields are
zero values: empty strings, 0, false). -/
def ClassifySingle (file : FileMetadata) (o : AIOutcome) : Except String Suggestion :=
  match ClassifyBatch o with
  | Except.error e => Except.error e
  | Except.ok suggestions =>
    match suggestions with
    | [] => Except.ok
        { Filename := file.Name, SuggestedFolder := "Outros", SuggestedName := "",
          Reason := "Não foi possível classificar", Confidence := 0, NeedsContent := false }
    | s :: _ => Except.ok s

/-- `Classifier.ClassifyWithContent` (lines 475-498): a request failure is
wrapped, a parse failure is returned as-is, an empty list becomes the
same fallback. -/
def ClassifyWithContent (file : FileMetadata) (o : AIOutcome) : Except String Suggestion :=
  match o with
  | AIOutcome.requestError m => Except.error ("erro ao classificar com conteúdo: " ++ m)
  | AIOutcome.parseError m => Except.error m
  | AIOutcome.parsed [] => Except.ok
      { Filename := file.Name, SuggestedFolder := "Outros", SuggestedName := "",
        Reason := "Não foi possível classificar", Confidence := 0, NeedsContent := false }
  | AIOutcome.parsed (s :: _) => Except.ok s

/-- `Classifier.ClassifyWithDescription` (lines 501-524): same shape as
`ClassifyWithContent`, with its own request-error message. -/
def ClassifyWithDescription (file : FileMetadata) (o : AIOutcome) : Except String Suggestion :=
  match o with
  | AIOutcome.requestError m => Except.error ("erro ao classificar com descrição: " ++ m)
  | AIOutcome.parseError m => Except.error m
  | AIOutcome.parsed [] => Except.ok
      { Filename := file.Name, SuggestedFolder := "Outros", SuggestedName := "",
        Reason := "Não foi possível classificar", Confidence := 0, NeedsContent := false }
  | AIOutcome.parsed (s :: _) => Except.ok s

/-! ## Interactive decision loop (src/internal/cli/auth.go, lines 344-461)

The inner `for { switch input { ... } break }` of `runOrganize`, driven by
the scripted lines read from stdin.  Each loop iteration reads one action
line and lowercases+trims it; "d", "r", "n" and "c" read one further line
(trimmed only).  Branch-by-branch correspondence with the Go `switch`:

* `"m"`/`""` — terminal move to the suggestion's folder;
* `"d"` — reclassify with a description (`reclassify` abstracts
  `cls.ClassifyWithDescription`; `none` is its error case) and loop;
* `"r"` — terminal move to a replacement folder (default: suggestion's);
* `"n"` — terminal move with a replacement file name;
* `"c"` — a non-empty custom folder is a terminal move; an *empty* one
  increments `skipped` and then executes Go's plain `continue`, which
  re-enters this inner prompt loop (it is not `continue fileLoop`);
* `"p"` — increments `skipped` and `continue fileLoop`;
* `"q"` — ends the whole run;
* anything else — increments `skipped` and `continue fileLoop`.

The cache write on a successful reclassification only mirrors the new
suggestion already carried by the loop state, so it is not modelled here. -/

/-- How one file's decision loop ends. -/
inductive LoopResult where
  | move (targetFolder targetName : String) (skipped : Nat)
  | nextFile (skipped : Nat)
  | quitRun (skipped : Nat)
  | outOfInput (skipped : Nat)
deriving DecidableEq, Repr

/-- The target-name conditional repeated in the "m", "r", "n" and "c"
branches: the suggested name when present and different from the
original, the original name otherwise. -/
def suggestedTargetName (f : FileInfo) (s : Suggestion) : String :=
  if s.SuggestedName != "" && s.SuggestedName != f.Name then s.SuggestedName else f.Name

/-- The decision loop for one file `f`, with current suggestion, skip
counter and remaining scripted input lines. -/
def decisionLoop (f : FileInfo) (reclassify : String → Option Suggestion) :
    Suggestion → Nat → List String → LoopResult
  | _, skipped, [] => LoopResult.outOfInput skipped
  | s, skipped, rawInput :: rest =>
    let input := trimStr (toLowerStr rawInput)
    if input == "m" || input == "" then
      LoopResult.move s.SuggestedFolder (suggestedTargetName f s) skipped
    else if input == "d" then
      match rest with
      | [] => LoopResult.outOfInput skipped
      | rawDesc :: rest2 =>
        let description := trimStr rawDesc
        if description == "" then
          decisionLoop f reclassify s skipped rest2
        else
          match reclassify description with
          | none => decisionLoop f reclassify s skipped rest2
          | some newSuggestion => decisionLoop f reclassify newSuggestion skipped rest2
    else if input == "r" then
      match rest with
      | [] => LoopResult.outOfInput skipped
      | rawFolder :: _ =>
        let newFolder := trimStr rawFolder
        LoopResult.move (if newFolder == "" then s.SuggestedFolder else newFolder)
          (suggestedTargetName f s) skipped
    else if input == "n" then
      match rest with
      | [] => LoopResult.outOfInput skipped
      | rawName :: _ =>
        let newName := trimStr rawName
        LoopResult.move s.SuggestedFolder
          (if newName == "" then suggestedTargetName f s else newName) skipped
    else if input == "c" then
      match rest with
      | [] => LoopResult.outOfInput skipped
      | rawCustom :: rest2 =>
        let customName := trimStr rawCustom
        if customName == "" then
          decisionLoop f reclassify s (skipped + 1) rest2
        else
          LoopResult.move customName (suggestedTargetName f s) skipped
    else if input == "p" then
      LoopResult.nextFile (skipped + 1)
    else if input == "q" then
      LoopResult.quitRun skipped
    else
      LoopResult.nextFile (skipped + 1)

/-! ## Backup stager (src/internal/cli/auth.go, lines 123-162 and 211-226) -/

/-- The non-folder root items (the `files` slice of lines 123-132). -/
def rootFiles (allFiles : List FileInfo) : List FileInfo :=
  allFiles.filter (fun f => !f.IsFolder)

/-- The folder root items (the `folders` slice of lines 123-132). -/
def rootFolders (allFiles : List FileInfo) : List FileInfo :=
  allFiles.filter (fun f => f.IsFolder)

/-- `strings.Split(cfg.BackupFolder, "/")[0]` (line 145). -/
def backupRootName (backupFolder : String) : String :=
  (splitOnSlash backupFolder).headD ""

/-- The "to back up" set (lines 146-162): all non-folder items except a
folder named like the backup path's first segment — a condition no
non-folder item meets — followed by all folders except those named like
that first segment. -/
def filesToBackup (allFiles : List FileInfo) (backupFolder : String) : List FileInfo :=
  let root := backupRootName backupFolder
  (rootFiles allFiles).filter (fun f => !(f.Name == root && f.IsFolder))
    ++ (rootFolders allFiles).filter (fun f => f.Name != root)

/-- The old-parent fallback used by the move loops: the first parent, or
"root" when the item has none. -/
def oldParentOf (f : FileInfo) : String :=
  match f.Parents with
  | [] => "root"
  | p :: _ => p

/-- The `(fileID, newParentID, oldParentID)` triples the backup loop
(lines 211-226) passes to `drive.MoveFile`, in order. -/
def backupMoves (toBackup : List FileInfo) (backupFolderID : String) :
    List (String × String × String) :=
  toBackup.map (fun f => (f.ID, backupFolderID, oldParentOf f))

/-! ## Folder find-or-create (src/unnamed/part_003, lines 12-102)

The Drive folder state is a list of existing folders plus a fresh-ID
counter; `Files.Create` is modelled as appending a new folder with the
next fresh ID.  Remote failures are outside these claims' scope, so the
store operations always succeed. -/

/-- The folders existing remotely, plus a fresh-ID source. -/
structure DriveFolderStore where
  folders : List FileInfo
  nextId : Nat
deriving DecidableEq, Repr

/-- `drive.FindFolderByName`: first folder with this exact name under
this parent (the Go query asks for `pageSize = 1`). -/
def FindFolderByName (store : DriveFolderStore) (name parentID : String) :
    Option FileInfo :=
  store.folders.find? (fun f =>
    f.Name == name && f.Parents.contains parentID && f.IsFolder)

/-- `drive.CreateFolder`: creates a folder under `parentID`. -/
def CreateFolder (store : DriveFolderStore) (name parentID : String) :
    FileInfo × DriveFolderStore :=
  let created : FileInfo :=
    { ID := "folder-" ++ toString store.nextId, Name := name,
      MimeType := "application/vnd.google-apps.folder", Parents := [parentID],
      CreatedTime := "", ModifiedTime := "", Size := 0 }
  (created, ⟨store.folders ++ [created], store.nextId + 1⟩)

/-- `drive.FindOrCreateFolder`: find by exact name and parent, create
only when absent. -/
def FindOrCreateFolder (store : DriveFolderStore) (name parentID : String) :
    FileInfo × DriveFolderStore :=
  match FindFolderByName store name parentID with
  | some existing => (existing, store)
  | none => CreateFolder store name parentID

/-- `drive.FindOrCreateNestedFolder` (part_003, lines 81-102): walks the
slash-separated segments, skipping empty-after-trim ones; `lastFolder`
starts as the Go `nil` (`none`) and the final `(lastFolder, nil-error)`
is the returned pair. -/
def FindOrCreateNestedFolder (store : DriveFolderStore) (path rootParentID : String) :
    Option FileInfo × DriveFolderStore :=
  go (splitOnSlash path) rootParentID none store
where
  go : List String → String → Option FileInfo → DriveFolderStore →
      Option FileInfo × DriveFolderStore
  | [], _, lastFolder, st => (lastFolder, st)
  | part :: rest, currentParent, lastFolder, st =>
    let trimmed := trimStr part
    if trimmed == "" then go rest currentParent lastFolder st
    else
      let created := FindOrCreateFolder st trimmed currentParent
      go rest created.1.ID (some created.1) created.2

/-- Models the `destFolder.ID` field access at auth.go line 473: reading
through a Go `nil` pointer panics, which the model reports as an error. -/
def destFolderIDDeref (destFolder : Option FileInfo) : Except String String :=
  match destFolder with
  | none => Except.error "runtime error: invalid memory address or nil pointer dereference"
  | some f => Except.ok f.ID

/-! ## Concrete sample data used by the closed statements -/

/-- The spec's running-example file. -/
def sampleFile : FileInfo :=
  ⟨"fid-1", "relatorio.pdf", "application/pdf", ["backup-id"], "2024-01-15", "", 10⟩

/-- The spec's running-example suggestion (folder `Trabalho/Relatórios`,
unchanged name, confidence 0.95). -/
def sampleSuggestion : Suggestion :=
  ⟨"relatorio.pdf", "Trabalho/Relatórios", "relatorio.pdf",
   "Documento profissional", (95 : Rat) / 100, false⟩

/-- A 502 Bad Gateway error. -/
def err502 : GoError := ⟨some 502, "googleapi: Error 502: Bad Gateway"⟩

/-- A connection-reset error without an API status code. -/
def errConnReset : GoError := ⟨none, "read tcp 10.0.0.2:443: connection reset by peer"⟩

/-- A permanent 404 error. -/
def err404 : GoError := ⟨some 404, "googleapi: Error 404: File not found"⟩

/-- Root file `A.txt` of the Backup Stager scenario. -/
def fileA : FileInfo := ⟨"idA", "A.txt", "text/plain", ["root"], "", "", 1⟩

/-- Root file `B.pdf` of the Backup Stager scenario. -/
def fileB : FileInfo := ⟨"idB", "B.pdf", "application/pdf", ["root"], "", "", 2⟩

/-- The root `backup/` folder of the Backup Stager scenario. -/
def backupDir : FileInfo :=
  ⟨"idBk", "backup", "application/vnd.google-apps.folder", ["root"], "", "", 0⟩

/-- Sample metadata for the prompt-builder statements. -/
def sampleMeta : FileMetadata := ⟨"notas.txt", "text/plain", 64, "2024-01-15", ""⟩

/-- An ASCII payload of 2001 characters — one more than the truncation
threshold. -/
def bigPayload : String := ⟨List.replicate 2001 'x'⟩

/-! # Theorems

## Remote tree walker: depth behavior (claim C1) -/

/-- One step of the walker down the deep chain: descending is cut exactly
when the child folder would be entered at depth `> 20`. -/
lemma collect_deep_succ (n depth : Nat) :
    collectFiles (deepTree (n + 1)) depth =
      if depth + 1 > 20 then [] else collectFiles (deepTree n) (depth + 1) := by
  show collectFiles (DriveNode.folder (folderInfoAt n) (deepTree n) :: []) depth = _
  simp only [collectFiles, listAllFilesRecursiveWithDepth]
  by_cases h : depth + 1 > 20 <;> simp [h]

/-- Within the depth budget the whole chain is walked. -/
lemma collect_deep_le (n depth : Nat) (h : depth + n ≤ 20) :
    collectFiles (deepTree n) depth = [bottomFile] := by
  induction n generalizing depth with
  | zero => simp [deepTree, collectFiles]
  | succ n ih =>
    rw [collect_deep_succ, if_neg (by omega)]
    exact ih (depth + 1) (by omega)

/-- Beyond the depth budget the chain's file is silently dropped. -/
lemma collect_deep_cut (n depth : Nat) (h2 : 20 ≤ depth + n) :
    collectFiles (deepTree (n + 1)) depth = [] := by
  induction n generalizing depth with
  | zero => rw [collect_deep_succ, if_pos (by omega)]
  | succ n ih =>
    rw [collect_deep_succ]
    by_cases hgt : depth + 1 > 20
    · rw [if_pos hgt]
    · rw [if_neg hgt]
      exact ih (depth + 1) (by omega)

/-- The deep chain has folder depth `n`. -/
lemma listHeight_deepTree (n : Nat) : listHeight (deepTree n) = n := by
  induction n with
  | zero => simp [deepTree, listHeight, nodeHeight]
  | succ n ih => simp [deepTree, listHeight, nodeHeight, ih]; omega

/-- The deep chain holds exactly the bottom file. -/
lemma listFiles_deepTree (n : Nat) : listFiles (deepTree n) = [bottomFile] := by
  induction n with
  | zero => simp [deepTree, listFiles, nodeFiles]
  | succ n ih => simp [deepTree, listFiles, nodeFiles, ih]

/-- A forest within the depth budget is walked completely. -/
theorem collect_within_height (cs : List DriveNode) (depth : Nat)
    (h : depth + listHeight cs ≤ 20) : collectFiles cs depth = listFiles cs := by
  match cs with
  | [] => simp [collectFiles, listFiles]
  | DriveNode.file i :: rest =>
    have hr : depth + listHeight rest ≤ 20 := by
      simp [listHeight, nodeHeight] at h; omega
    rw [show collectFiles (DriveNode.file i :: rest) depth
          = i :: collectFiles rest depth from by simp [collectFiles]]
    rw [collect_within_height rest depth hr]
    simp [listFiles, nodeFiles]
  | DriveNode.folder i sub :: rest =>
    have hmax : max (1 + listHeight sub) (listHeight rest)
        = listHeight (DriveNode.folder i sub :: rest) := by
      simp [listHeight, nodeHeight]
    have hsub : (depth + 1) + listHeight sub ≤ 20 := by omega
    have hr : depth + listHeight rest ≤ 20 := by omega
    rw [show collectFiles (DriveNode.folder i sub :: rest) depth
          = (match listAllFilesRecursiveWithDepth sub (depth + 1) with
             | Except.ok subFiles => subFiles
             | Except.error _ => []) ++ collectFiles rest depth from by
        simp [collectFiles]]
    rw [listAllFilesRecursiveWithDepth, if_neg (by omega)]
    rw [collect_within_height sub (depth + 1) hsub, collect_within_height rest depth hr]
    simp [listFiles, nodeFiles]
termination_by sizeOf cs

/-- C1: the claim says a recursive listing of a depth-21 tree fails with
the maximum-depth error.  It does not: on the depth-21 chain — which does
hold a file — `ListAllFilesRecursive` returns `ok []`: the depth error is
raised inside the recursion, but the parent level logs and skips the
subtree (`continue`), so the call succeeds while silently dropping the
too-deep file. -/
theorem C1_counterexample :
    ListAllFilesRecursive (deepTree 21) = Except.ok []
      ∧ listHeight (deepTree 21) = 21
      ∧ listFiles (deepTree 21) = [bottomFile] := by
  refine ⟨?_, listHeight_deepTree 21, listFiles_deepTree 21⟩
  show listAllFilesRecursiveWithDepth (deepTree 21) 0 = Except.ok []
  rw [listAllFilesRecursiveWithDepth, if_neg (by omega),
    collect_deep_cut 20 0 (by omega)]

/-- C1 amended: the depth counter starts at 0
(`ListAllFilesRecursive cs = listAllFilesRecursiveWithDepth cs 0`) and the
depth-exceeded error is raised whenever a listing is entered at depth
`> 20`; a tree of folder depth at most 20 is listed completely; but on a
depth-21 tree the top-level call does **not** fail — the error is
swallowed one level up and the too-deep subtree is omitted, as on the
depth-21 chain whose only file vanishes from the `ok` result. -/
theorem C1_amended :
    (∀ cs depth, 20 < depth →
      listAllFilesRecursiveWithDepth cs depth = Except.error depthExceededMsg)
      ∧ (∀ cs, ListAllFilesRecursive cs = listAllFilesRecursiveWithDepth cs 0)
      ∧ (∀ cs, listHeight cs ≤ 20 → ListAllFilesRecursive cs = Except.ok (listFiles cs))
      ∧ ListAllFilesRecursive (deepTree 20) = Except.ok [bottomFile]
      ∧ ListAllFilesRecursive (deepTree 21) = Except.ok [] := by
  refine ⟨?_, fun _ => rfl, ?_, ?_, ?_⟩
  · intro cs depth hd
    rw [listAllFilesRecursiveWithDepth, if_pos (by omega)]
  · intro cs hcs
    show listAllFilesRecursiveWithDepth cs 0 = _
    rw [listAllFilesRecursiveWithDepth, if_neg (by omega),
      collect_within_height cs 0 (by omega)]
  · show listAllFilesRecursiveWithDepth (deepTree 20) 0 = _
    rw [listAllFilesRecursiveWithDepth, if_neg (by omega),
      collect_deep_le 20 0 (by omega)]
  · show listAllFilesRecursiveWithDepth (deepTree 21) 0 = _
    rw [listAllFilesRecursiveWithDepth, if_neg (by omega),
      collect_deep_cut 20 0 (by omega)]

/-- Witness for C1's amended theorem at concrete inputs. -/
theorem C1_amended_witness :
    listAllFilesRecursiveWithDepth [] 21 = Except.error depthExceededMsg
      ∧ ListAllFilesRecursive [DriveNode.file bottomFile]
          = Except.ok (listFiles [DriveNode.file bottomFile]) :=
  ⟨C1_amended.1 [] 21 (by omega),
   C1_amended.2.2.1 [DriveNode.file bottomFile] (by simp [listHeight, nodeHeight])⟩

/-! ## Decision engine: the "c"-then-empty path (claim C2)

The Go branch prints "Nome vazio, pulando..." ("empty name, skipping"),
increments `skipped`, and then executes a plain `continue` — which
re-enters the inner prompt loop for the *same* file, unlike the `"p"` and
`default` branches whose `continue fileLoop` moves to the next file.  So
the claimed terminal Skip does not happen: with the script
`["c", "", "p"]` the same file's loop consumes the subsequent `"p"` and
the skip counter reaches 2 for a single file, and with `["c", ""]` alone
the loop is still awaiting input. -/

/-- C2: evaluation of the decision loop at the failing input.  The third
conjunct shows, for contrast, the genuinely terminal `"p"` branch. -/
theorem C2_code_behavior :
    decisionLoop sampleFile (fun _ => none) sampleSuggestion 0 ["c", "", "p"]
        = LoopResult.nextFile 2
      ∧ decisionLoop sampleFile (fun _ => none) sampleSuggestion 0 ["c", ""]
        = LoopResult.outOfInput 1
      ∧ decisionLoop sampleFile (fun _ => none) sampleSuggestion 0 ["p"]
        = LoopResult.nextFile 1 := by
  exact ⟨by decide, by decide, by decide⟩

/-! ## Retryability classification (claim C3) -/

/-- The amended classification of list-page fetches, written from the
corrected wording: only status codes 429, 500 and 503 are retried, and
nothing else — connection-level failures included — is. -/
def specListRetryable (e : GoError) : Bool :=
  match e.apiCode with
  | some c => [429, 500, 503].contains c
  | none => false

/-- C3: a 502 Bad Gateway and a connection reset are retryable by the
claimed rule (and by the movers' `isRetryable`), yet the inline
classifier of the list-page fetch marks both permanent. -/
theorem C3_counterexample :
    listFetchRetryable err502 = false
      ∧ specRetryable err502 = true
      ∧ isRetryable err502 = true
      ∧ listFetchRetryable errConnReset = false
      ∧ specRetryable errConnReset = true := by
  exact ⟨by decide, by decide, by decide, by decide, by decide⟩

/-- C3 amended: the mutating operations' `isRetryable` classifies exactly
as the claim says, but list-page fetches retry only status codes
{429, 500, 503} and treat every other failure — 502, 504 and
connection-level failures included — as permanent. -/
theorem C3_amended :
    (∀ e, isRetryable e = specRetryable e)
      ∧ (∀ e, listFetchRetryable e = specListRetryable e) := by
  constructor
  · intro e
    cases e with
    | mk code msg =>
      cases code with
      | none => rfl
      | some c =>
        rw [Bool.eq_iff_iff]
        simp [isRetryable, specRetryable, List.contains, List.any, beq_iff_eq]
        tauto
  · intro e
    cases e with
    | mk code msg =>
      cases code with
      | none => rfl
      | some c =>
        rw [Bool.eq_iff_iff]
        simp [listFetchRetryable, specListRetryable, List.contains, List.any, beq_iff_eq]
        tauto

/-! ## Classification cache (claim C4) -/

/-- C4: a set is observed by the next get of the same key; a second set
overwrites (last-write-wins); a set keeps the at-most-one-entry-per-key
map invariant (which the empty cache has); and the key is
`name ++ "|" ++ content-type`. -/
theorem C4_cache_laws :
    ∀ (c : Cache) (key : String) (s s2 : Suggestion) (name mimeType : String),
      ((c.Set key s).Get key = some s)
      ∧ (((c.Set key s).Set key s2).Get key = some s2)
      ∧ (c.AtMostOnePerKey → (c.Set key s).AtMostOnePerKey)
      ∧ NewCache.AtMostOnePerKey
      ∧ CacheKey name mimeType = name ++ "|" ++ mimeType := by
  intro c key s s2 name mimeType
  refine ⟨?_, ?_, ?_, ?_, rfl⟩
  · simp [Cache.Get, Cache.Set, List.lookup]
  · simp [Cache.Get, Cache.Set, List.lookup]
  · intro h key2
    show List.countP _ ((key, s) :: _) ≤ 1
    rw [List.countP_cons]
    by_cases hk : key = key2
    · subst hk
      have hz : List.countP (fun p => p.1 == key)
          (c.items.filter (fun p => p.1 != key)) = 0 := by
        rw [List.countP_eq_zero]
        intro p hp
        have hne := (List.mem_filter.mp hp).2
        simpa using hne
      simp [hz]
    · have hle : List.countP (fun p => p.1 == key2)
          (c.items.filter (fun p => p.1 != key))
            ≤ List.countP (fun p => p.1 == key2) c.items :=
        List.Sublist.countP_le _ (List.filter_sublist _)
      have hif : ((key, s).1 == key2) = false := by simpa using hk
      simp only [hif, if_false, Nat.add_zero]
      exact le_trans hle (h key2)
  · intro key2
    simp [NewCache]

/-- Witness for C4 at a concrete key and cache. -/
theorem C4_cache_laws_witness :
    ((NewCache.Set "relatorio.pdf|application/pdf" sampleSuggestion).Get
        "relatorio.pdf|application/pdf" = some sampleSuggestion)
      ∧ (NewCache.Set "relatorio.pdf|application/pdf" sampleSuggestion).AtMostOnePerKey := by
  refine ⟨(C4_cache_laws NewCache "relatorio.pdf|application/pdf" sampleSuggestion
      sampleSuggestion "relatorio.pdf" "application/pdf").1,
    (C4_cache_laws NewCache "relatorio.pdf|application/pdf" sampleSuggestion
      sampleSuggestion "relatorio.pdf" "application/pdf").2.2.1 ?_⟩
  intro key
  simp [NewCache]

/-! ## Decision engine: accept (claim C5) -/

/-- `suggestedTargetName` in the claim's phrasing: fall back to the
original name when the suggestion's name is absent or unchanged. -/
lemma suggestedTargetName_spec (f : FileInfo) (s : Suggestion) :
    suggestedTargetName f s =
      if s.SuggestedName = "" ∨ s.SuggestedName = f.Name then f.Name
      else s.SuggestedName := by
  by_cases h1 : s.SuggestedName = "" <;> by_cases h2 : s.SuggestedName = f.Name <;>
    simp [suggestedTargetName, h1, h2]

/-- C5: input "m", and likewise the empty input, terminates the loop at
once with the suggestion's folder, and the target name is the suggested
name unless that is absent or equal to the file's original name, in which
case it is the original name.  No remote mutation and no skip-counter
change is part of this outcome. -/
theorem C5_accept_terminal :
    ∀ (f : FileInfo) (reclassify : String → Option Suggestion) (s : Suggestion)
      (skipped : Nat) (rest : List String),
      decisionLoop f reclassify s skipped ("m" :: rest)
        = LoopResult.move s.SuggestedFolder
            (if s.SuggestedName = "" ∨ s.SuggestedName = f.Name then f.Name
             else s.SuggestedName) skipped
      ∧ decisionLoop f reclassify s skipped ("" :: rest)
        = LoopResult.move s.SuggestedFolder
            (if s.SuggestedName = "" ∨ s.SuggestedName = f.Name then f.Name
             else s.SuggestedName) skipped := by
  intro f reclassify s skipped rest
  constructor
  · have hc : (trimStr (toLowerStr "m") == "m" || trimStr (toLowerStr "m") == "") = true := by
      decide
    rw [← suggestedTargetName_spec, decisionLoop.eq_def]
    simp [hc]
  · have hc : (trimStr (toLowerStr "") == "m" || trimStr (toLowerStr "") == "") = true := by
      decide
    rw [← suggestedTargetName_spec, decisionLoop.eq_def]
    simp [hc]

/-! ## Backup stager (claim C6) -/

/-- C6: the staged set is exactly the root listing minus folders named
like the backup path's first segment; on the scenario root
{A.txt, B.pdf, backup/} with backup path "backup", the moves send A.txt
and B.pdf under the backup folder and never touch the backup folder
itself (the staged IDs are exactly idA and idB). -/
theorem C6_backup_partition :
    (∀ (allFiles : List FileInfo) (backupFolder : String) (f : FileInfo),
      f ∈ filesToBackup allFiles backupFolder
        ↔ f ∈ allFiles ∧ ¬(f.IsFolder = true ∧ f.Name = backupRootName backupFolder))
      ∧ filesToBackup [fileA, fileB, backupDir] "backup" = [fileA, fileB]
      ∧ backupMoves (filesToBackup [fileA, fileB, backupDir] "backup") "backup-id"
          = [("idA", "backup-id", "root"), ("idB", "backup-id", "root")]
      ∧ (backupMoves (filesToBackup [fileA, fileB, backupDir] "backup")
          "backup-id").map (fun m => m.1) = ["idA", "idB"]
      ∧ backupDir.ID = "idBk" := by
  refine ⟨?_, by decide, by decide, by decide, by decide⟩
  intro allFiles backupFolder f
  simp only [filesToBackup, rootFiles, rootFolders, List.mem_append, List.mem_filter]
  by_cases hf : f.IsFolder = true <;>
    by_cases hn : f.Name = backupRootName backupFolder <;>
      simp [hf, hn]

/-! ## Retry executor: permanent errors stop immediately (claim C7) -/

/-- C7: whatever attempts would follow, a first error that `isRetryable`
rejects ends the retry loop at that attempt with zero backoff wait — the
rest of the attempt script is never consulted — and each mover returns
the wrapped error naming the target file ID and the original cause. -/
theorem C7_permanent_immediate :
    ∀ (fileID newName newParentID oldParentID : String) (e : GoError)
      (rest : List AttemptResult),
      isRetryable e = false →
      retryLoop isRetryable 120000 30000 (AttemptResult.failure e :: rest) 0 0 1000
          = RetryOutcome.permanent e 1 0
        ∧ MoveFile fileID newParentID oldParentID (AttemptResult.failure e :: rest)
          = MoverResult.err ("erro ao mover arquivo '" ++ fileID ++ "': " ++ e.msg)
        ∧ RenameFile fileID newName (AttemptResult.failure e :: rest)
          = MoverResult.err ("erro ao renomear arquivo '" ++ fileID ++ "': " ++ e.msg)
        ∧ MoveAndRenameFile fileID newName newParentID oldParentID
            (AttemptResult.failure e :: rest)
          = MoverResult.err
              ("erro ao mover e renomear arquivo '" ++ fileID ++ "': " ++ e.msg) := by
  intro fileID newName newParentID oldParentID e rest h
  have hloop : retryLoop isRetryable 120000 30000 (AttemptResult.failure e :: rest) 0 0 1000
      = RetryOutcome.permanent e 1 0 := by
    rw [retryLoop.eq_def]
    simp [h]
  exact ⟨hloop,
    by simp [MoveFile, moverWrap, hloop],
    by simp [RenameFile, moverWrap, hloop],
    by simp [MoveAndRenameFile, moverWrap, hloop]⟩

/-- Witness for C7 with a concrete 404 error. -/
theorem C7_permanent_immediate_witness :
    retryLoop isRetryable 120000 30000 [AttemptResult.failure err404] 0 0 1000
        = RetryOutcome.permanent err404 1 0
      ∧ MoveFile "fid-1" "np" "op" [AttemptResult.failure err404]
        = MoverResult.err ("erro ao mover arquivo '" ++ "fid-1" ++ "': " ++ err404.msg) :=
  ⟨(C7_permanent_immediate "fid-1" "nn" "np" "op" err404 [] (by decide)).1,
   (C7_permanent_immediate "fid-1" "nn" "np" "op" err404 [] (by decide)).2.1⟩

/-! ## Prompt builders: payload truncation (claim C8) -/

/-- The description payload contributes its full length to the prompt. -/
lemma buildDescriptionPrompt_length (file : FileMetadata) (d : String)
    (folders : List String) :
    (buildDescriptionPrompt file d folders).length
      = (buildDescriptionPrompt file "" folders).length + d.length := by
  have h0 : ("" : String).length = 0 := rfl
  simp only [buildDescriptionPrompt, String.length_append, h0]
  omega

/-- The content payload contributes at most 2000 characters, plus the
truncation marker when it was longer. -/
lemma buildContentPrompt_length (file : FileMetadata) (content : String)
    (folders : List String) :
    (buildContentPrompt file content folders).length
      = (buildContentPrompt file "" folders).length + min content.length 2000
        + (if 2000 < content.length then ("... [truncado]" : String).length else 0) := by
  have h0 : ("" : String).length = 0 := rfl
  have htake : (takeStr content 2000).length = min 2000 content.length := by
    show (content.data.take 2000).length = _
    rw [List.length_take]
    rfl
  by_cases h : content.length > 2000
  · simp only [buildContentPrompt, if_pos h, String.length_append, htake, h0]
    rw [if_neg (show ¬((0 : Nat) > 2000) from by omega)]
    simp only [h0]
    omega
  · simp only [buildContentPrompt, if_neg h, String.length_append, h0]
    rw [if_neg (show ¬((0 : Nat) > 2000) from by omega)]
    simp only [h0]
    omega

/-- `bigPayload` really has 2001 characters. -/
lemma bigPayload_length : bigPayload.length = 2001 := by
  rw [show bigPayload.length = (List.replicate 2001 'x').length from rfl,
    List.length_replicate]

/-- C8: the claim says the user-description payload is truncated to its
first 2000 characters before entering the prompt.  It is not: on a
2001-character payload the built prompt is one character longer than the
prompt built from the truncated payload, so the full payload went in. -/
theorem C8_counterexample :
    2000 < bigPayload.length
      ∧ (buildDescriptionPrompt sampleMeta bigPayload []).length
        = (buildDescriptionPrompt sampleMeta (takeStr bigPayload 2000) []).length + 1 := by
  have hbig := bigPayload_length
  have htake : (takeStr bigPayload 2000).length = 2000 := by
    show (bigPayload.data.take 2000).length = 2000
    rw [List.length_take, show bigPayload.data.length = 2001 from hbig]
    omega
  constructor
  · omega
  · rw [buildDescriptionPrompt_length sampleMeta bigPayload [],
      buildDescriptionPrompt_length sampleMeta (takeStr bigPayload 2000) [],
      hbig, htake]

/-- C8 amended: only the file-content payload of `buildContentPrompt` is
truncated — to its first 2000 characters plus a "... [truncado]" marker —
while the user-description payload of `buildDescriptionPrompt` is always
included in full. -/
theorem C8_amended :
    ∀ (file : FileMetadata) (content userDescription : String) (folders : List String),
      ((buildContentPrompt file content folders).length
        = (buildContentPrompt file "" folders).length + min content.length 2000
          + (if 2000 < content.length then ("... [truncado]" : String).length else 0))
      ∧ (2000 < content.length →
          buildContentPrompt file content folders
            = buildContentPrompt file (takeStr content 2000 ++ "... [truncado]") folders)
      ∧ ((buildDescriptionPrompt file userDescription folders).length
        = (buildDescriptionPrompt file "" folders).length + userDescription.length) := by
  intro file content userDescription folders
  refine ⟨buildContentPrompt_length file content folders, ?_,
    buildDescriptionPrompt_length file userDescription folders⟩
  intro h
  have hlen : (takeStr content 2000).length = 2000 := by
    show (content.data.take 2000).length = 2000
    rw [List.length_take, show content.data.length = content.length from rfl]
    omega
  have hlong : (takeStr content 2000 ++ "... [truncado]").length > 2000 := by
    rw [String.length_append, hlen,
      show ("... [truncado]" : String).length = 14 from rfl]
    omega
  have hTT : takeStr (takeStr content 2000 ++ "... [truncado]") 2000
      = takeStr content 2000 := by
    show (⟨((takeStr content 2000 ++ "... [truncado]").data.take 2000 : List Char)⟩ : String)
        = takeStr content 2000
    have hdata : (takeStr content 2000 ++ "... [truncado]").data
        = content.data.take 2000 ++ ("... [truncado]" : String).data := rfl
    rw [hdata, List.take_append_eq_append_take,
      show (content.data.take 2000).length = 2000 from hlen]
    simp [List.take_take, takeStr]
  simp only [buildContentPrompt, if_pos h, if_pos hlong, hTT]

/-- Witness for C8's amended theorem on the 2001-character payload. -/
theorem C8_amended_witness :
    buildContentPrompt sampleMeta bigPayload []
      = buildContentPrompt sampleMeta (takeStr bigPayload 2000 ++ "... [truncado]") [] :=
  (C8_amended sampleMeta bigPayload "" []).2.1 (by simp [bigPayload_length])

/-! ## Classifier fallbacks (claim C9) -/

/-- C9: when the response parses to an empty suggestion list, all three
entry points return (with no error) the fallback suggestion carrying
folder "Outros", confidence 0 and the file's original name; and each
returns an error exactly when the request or the parse failed. -/
theorem C9_fallback :
    ∀ (file : FileMetadata) (o : AIOutcome),
      ClassifySingle file (AIOutcome.parsed [])
          = Except.ok
              { Filename := file.Name, SuggestedFolder := "Outros",
                SuggestedName := "", Reason := "Não foi possível classificar",
                Confidence := 0, NeedsContent := false }
        ∧ ClassifyWithContent file (AIOutcome.parsed [])
          = Except.ok
              { Filename := file.Name, SuggestedFolder := "Outros",
                SuggestedName := "", Reason := "Não foi possível classificar",
                Confidence := 0, NeedsContent := false }
        ∧ ClassifyWithDescription file (AIOutcome.parsed [])
          = Except.ok
              { Filename := file.Name, SuggestedFolder := "Outros",
                SuggestedName := "", Reason := "Não foi possível classificar",
                Confidence := 0, NeedsContent := false }
        ∧ (ClassifySingle file o).isOk = !o.isFailure
        ∧ (ClassifyWithContent file o).isOk = !o.isFailure
        ∧ (ClassifyWithDescription file o).isOk = !o.isFailure := by
  intro file o
  refine ⟨rfl, rfl, rfl, ?_, ?_, ?_⟩ <;>
    (cases o with
     | requestError m => rfl
     | parseError m => rfl
     | parsed l => cases l <;> rfl)

/-! ## Blank folder paths (claim C10) -/

/-- The segment walk of `FindOrCreateNestedFolder` ignores every
empty-after-trim segment, leaving `lastFolder` and the store untouched. -/
lemma nested_go_blank (parts : List String) :
    ∀ (parent : String) (last : Option FileInfo) (st : DriveFolderStore),
      (∀ p ∈ parts, trimStr p = "") →
      FindOrCreateNestedFolder.go parts parent last st = (last, st) := by
  induction parts with
  | nil => intro parent last st _; rfl
  | cons p rest ih =>
    intro parent last st h
    have hp : trimStr p = "" := h p (by simp)
    rw [FindOrCreateNestedFolder.go.eq_def]
    simp only [hp]
    simp only [show (("" : String) == "") = true from rfl, if_pos]
    exact ih parent last st (fun q hq => h q (by simp [hq]))

/-- C10: on a path whose slash-separated segments are all blank, the
find-or-create walk returns the Go `nil` folder with a `nil` error and an
unchanged store (nothing is created), so the caller's unguarded
`destFolder.ID` dereference at auth.go line 473 is a nil-pointer panic. -/
theorem C10_blank_path :
    ∀ (store : DriveFolderStore) (path rootParentID : String),
      (∀ part ∈ splitOnSlash path, trimStr part = "") →
      FindOrCreateNestedFolder store path rootParentID = (none, store)
        ∧ destFolderIDDeref (FindOrCreateNestedFolder store path rootParentID).1
          = Except.error
              "runtime error: invalid memory address or nil pointer dereference" := by
  intro store path root h
  have hgo : FindOrCreateNestedFolder store path root = (none, store) :=
    nested_go_blank (splitOnSlash path) root none store h
  exact ⟨hgo, by rw [hgo]; rfl⟩

/-- Witness for C10 on the whitespace path `" / "` (and, for the record,
on `""` and `"/"`). -/
theorem C10_blank_path_witness :
    (FindOrCreateNestedFolder ⟨[], 0⟩ " / " "root" = (none, ⟨[], 0⟩)
        ∧ destFolderIDDeref (FindOrCreateNestedFolder ⟨[], 0⟩ " / " "root").1
          = Except.error
              "runtime error: invalid memory address or nil pointer dereference")
      ∧ FindOrCreateNestedFolder ⟨[], 0⟩ "" "root" = (none, ⟨[], 0⟩)
      ∧ FindOrCreateNestedFolder ⟨[], 0⟩ "/" "root" = (none, ⟨[], 0⟩) :=
  ⟨C10_blank_path ⟨[], 0⟩ " / " "root" (by decide),
   (C10_blank_path ⟨[], 0⟩ "" "root" (by decide)).1,
   (C10_blank_path ⟨[], 0⟩ "/" "root" (by decide)).1⟩

end DriverOrganizer
